import Mathlib

/-!
Shallow embedding of `src/data/data_reader_task.cpp` (the P1-meter data
reader task of the srcful-zap firmware).  The task's mutable state and the
observable state of its collaborators (the P1 meter's active link
configuration, the `Debug` diagnostic counters) are gathered in one
structure; each C++ member function becomes a pure state-transformer.
`millis()` values are passed in explicitly as natural numbers, and the
`uint32_t` subtraction performed on them is made explicit.  The bounded
FreeRTOS queue is modelled as a Lean list together with its fixed
capacity; decoders and the JWT packaging step are external collaborators
and appear as function parameters.
-/

/-- Wire-format discriminant of a completed frame (`IFrameData::Type`):
HDLC/DLMS binary, ASCII, M-Bus, or any other tag value (handled by the
`default` branch of the dispatch switch in `handleFrame`). -/
inductive FrameType where
  | hdlc
  | ascii
  | mbus
  | other (tag : Nat)
deriving DecidableEq

/-- A completed frame as seen by the frame callback: a type discriminant
(`getFrameTypeId`) and a read-only byte sequence. -/
structure Frame where
  typeId : FrameType
  bytes : List Nat
deriving DecidableEq

/-- `frame.getFrameByte(i)`: the i-th byte of the frame. -/
def Frame.getFrameByte (f : Frame) (i : Nat) : Nat := f.bytes.getD i 0

/-- `frame.getFrameSize()`: the number of bytes in the frame. -/
def Frame.getFrameSize (f : Frame) : Nat := f.bytes.length

/-- A decoded reading (`P1Data`): opaque decoded content plus the
timestamp field written by `setTimeStamp()` at acceptance time. -/
structure P1Data where
  content : List Nat := []
  timestamp : Nat := 0
deriving DecidableEq

/-- `p1data.setTimeStamp()`: stamp the reading with the current time. -/
def P1Data.setTimeStamp (d : P1Data) (now : Nat) : P1Data :=
  { d with timestamp := now }

/-- A `DataPackage`: the serialized payload bytes plus the acceptance
timestamp (`package.timestamp = millis()`). -/
structure DataPackage where
  data : List Nat
  timestamp : Nat
deriving DecidableEq

/-- One P1-meter link configuration candidate, as returned by
`p1Meter.getConfig(i)`. -/
structure P1MeterConfig where
  baudRate : Nat
deriving DecidableEq

/-- Modelled from the spec: `getCandidate(index) -> Candidate` of the
Frame Source boundary (`P1Meter::getConfig` is not part of this task's
source); it indexes the meter's fixed candidate table. -/
def getConfig (configs : List P1MeterConfig) (i : Nat) : P1MeterConfig :=
  configs.getD i { baudRate := 0 }

/-- Modelled from the spec: the packaging boundary
`package(Reading) -> FixedSizeBuffer` (`createP1JWTPayload`, declared in
`p1data_funcs.h` but outside this task's source).  `none` models a
packaging failure; `some buf` is the wire-ready payload. -/
abbrev PackageFn := P1Data → Option (List Nat)

/-- Modelled from the spec: the decoder boundary — each decoder exposes
`decode(Frame) -> optional(Reading)` (`DLMSDecoder::decodeBuffer` and
`AsciiDecoder::decodeBuffer` are outside this task's source). -/
abbrev Decoder := Frame → Option P1Data

/-- The state of a `DataReaderTask` object together with the observable
state of its collaborators: `taskHandle` is `true` when the FreeRTOS task
exists, `p1DataQueue` is `none` for a null queue handle, `meterActive` is
the configuration most recently passed to `p1Meter.begin`, and the last
block of fields are the `Debug` diagnostic counters and snapshots. -/
structure DataReaderTask where
  taskHandle : Bool := false
  shouldRun : Bool := false
  p1DataQueue : Option (List DataPackage) := none
  readInterval : Nat := 10000
  lastReadTime : Nat := 0
  baudRateIx : Nat := 0
  callbackSet : Bool := false
  meterActive : Option P1MeterConfig := none
  lastDecodedData : Option P1Data := none
  frames : Nat := 0
  failedFrames : Nat := 0
  faultyFrameData : List Nat := []
  configIndexDiag : Nat := 0
deriving DecidableEq

/-- The freshly constructed task: all fields as set by the
`DataReaderTask` constructor. -/
def initialTask : DataReaderTask := {}

/-- Unsigned 32-bit subtraction `a - b` as computed on `uint32_t`
`millis()` values by `taskFunction`. -/
def sub32 (a b : Nat) : Nat := (2 ^ 32 + a % 2 ^ 32 - b % 2 ^ 32) % 2 ^ 32

/-- One push into the bounded FreeRTOS queue of capacity `N`, exactly as
performed by `enqueueData`: when `uxQueueSpacesAvailable` is zero the
oldest element is first received (removed from the head), then the new
element is sent to the back. -/
def queuePush {α : Type} (N : Nat) (q : List α) (x : α) : List α :=
  (if N - q.length = 0 then q.tail else q) ++ [x]

/-- A whole sequence of pushes, oldest first. -/
def pushAll {α : Type} (N : Nat) (q : List α) (xs : List α) : List α :=
  xs.foldl (queuePush N) q

/-- `DataReaderTask::enqueueData`: with a null queue handle do nothing;
otherwise build the JWT payload — a packaging failure is logged and the
reading dropped — then stamp the package with the current time, evict the
oldest element if the queue is full, and send the package to the back. -/
def enqueueData (N : Nat) (packageFn : PackageFn) (now : Nat)
    (p1DataQueue : Option (List DataPackage)) (p1data : P1Data) :
    Option (List DataPackage) :=
  match p1DataQueue with
  | none => none
  | some q =>
    match packageFn p1data with
    | none => some q
    | some buf => some (queuePush N q { data := buf, timestamp := now })

/-- The dispatch switch of `DataReaderTask::handleFrame` over
`frame.getFrameTypeId()`: HDLC frames go to the DLMS decoder, ASCII frames
to the ASCII decoder; M-Bus decoding is not implemented (the switch leaves
`isDecoded` false) and unknown tags fall to the `default` branch, so both
yield no reading. -/
def decodeFrame (dlms ascii : Decoder) (frame : Frame) : Option P1Data :=
  match frame.typeId with
  | FrameType.hdlc => dlms frame
  | FrameType.ascii => ascii frame
  | FrameType.mbus => none
  | FrameType.other _ => none

/-- The diagnostic loop of `handleFrame`'s failure branch: after
`Debug::clearFaultyFrameData()` it runs
`Debug::addFaultyFrameData(frame.getFrameByte(i))` for
`i = 0 .. frameSize - 1`. -/
def collectFrameBytes (frame : Frame) : List Nat :=
  (List.range frame.getFrameSize).map frame.getFrameByte

/-- `DataReaderTask::handleFrame`: dispatch the frame to its decoder; on
success bump the frame counter, set `lastReadTime` to the current time,
stamp the reading, enqueue it and remember it in `lastDecodedData`; on
failure bump the failed-frame counter and replace the faulty-frame
snapshot with the frame's bytes. -/
def handleFrame (N : Nat) (dlms ascii : Decoder) (packageFn : PackageFn)
    (now : Nat) (t : DataReaderTask) (frame : Frame) : DataReaderTask :=
  match decodeFrame dlms ascii frame with
  | some p1data =>
    let stamped := p1data.setTimeStamp now
    { t with
      frames := t.frames + 1
      lastReadTime := now
      p1DataQueue := enqueueData N packageFn now t.p1DataQueue stamped
      lastDecodedData := some stamped }
  | none =>
    { t with
      failedFrames := t.failedFrames + 1
      faultyFrameData := collectFrameBytes frame }

/-- `DataReaderTask::rotateP1MeterBaudRate`: when more than one P1-meter
configuration exists, advance the index modulo the candidate count, record
it in diagnostics and reconfigure the meter with the new candidate — a
failed `p1Meter.begin` (`beginOk cfg = false`) is only logged; in every
case set `lastReadTime` to the current time. -/
def rotateP1MeterBaudRate (configs : List P1MeterConfig)
    (beginOk : P1MeterConfig → Bool) (now : Nat) (t : DataReaderTask) :
    DataReaderTask :=
  let t1 :=
    if 1 < configs.length then
      let ix := (t.baudRateIx + 1) % configs.length
      let cfg := getConfig configs ix
      let t2 :=
        { t with baudRateIx := ix, configIndexDiag := ix,
                 meterActive := some cfg }
      if beginOk cfg then t2 else t2
    else t
  { t1 with lastReadTime := now }

/-- The stall check performed on each iteration of
`DataReaderTask::taskFunction`: when more than `30 * 1000` milliseconds (a
fixed constant) have elapsed since `lastReadTime`, rotate the P1-meter
configuration. -/
def stallCheck (configs : List P1MeterConfig)
    (beginOk : P1MeterConfig → Bool) (now : Nat) (t : DataReaderTask) :
    DataReaderTask :=
  if 30 * 1000 < sub32 now t.lastReadTime then
    rotateP1MeterBaudRate configs beginOk now t
  else t

/-- `DataReaderTask::setInterval`: store the given interval in the
`readInterval` field. -/
def setInterval (interval : Nat) (t : DataReaderTask) : DataReaderTask :=
  { t with readInterval := interval }

/-- `DataReaderTask::begin`: if the task is already running return
immediately; otherwise register the frame callback, initialize the P1
meter with the configuration at the current index (failure only logged),
store the queue handle, set the run flag and create the worker task. -/
def DataReaderTask.begin (configs : List P1MeterConfig)
    (dataQueue : Option (List DataPackage)) (t : DataReaderTask) :
    DataReaderTask :=
  if t.taskHandle then t
  else
    { t with
      callbackSet := true
      meterActive := some (getConfig configs t.baudRateIx)
      p1DataQueue := dataQueue
      shouldRun := true
      taskHandle := true }

/-- `DataReaderTask::stop`: if no task is running return immediately;
otherwise clear the run flag, let the loop exit and delete the task,
clearing the handle. -/
def DataReaderTask.stop (t : DataReaderTask) : DataReaderTask :=
  if t.taskHandle then { t with shouldRun := false, taskHandle := false }
  else t

/-- Three distinct candidate configurations, used for the concrete
rotation scenarios. -/
def threeConfigs : List P1MeterConfig := [⟨115200⟩, ⟨9600⟩, ⟨2400⟩]

/-- A task whose worker is running, used for the idempotence scenarios. -/
def runningTask : DataReaderTask := { taskHandle := true, shouldRun := true }

theorem queuePush_length_le {α : Type} (N : Nat) (hN : 0 < N) (q : List α)
    (x : α) (h : q.length ≤ N) : (queuePush N q x).length ≤ N := by
  unfold queuePush
  by_cases hfull : N - q.length = 0
  · simp only [if_pos hfull, List.length_append, List.length_tail]
    simp only [List.length_cons, List.length_nil]
    omega
  · simp only [if_neg hfull, List.length_append]
    simp only [List.length_cons, List.length_nil]
    omega

theorem pushAll_eq_drop {α : Type} (N : Nat) (hN : 0 < N) (xs : List α) :
    ∀ q : List α, q.length ≤ N →
      pushAll N q xs = (q ++ xs).drop ((q ++ xs).length - N) := by
  induction xs with
  | nil =>
    intro q h
    simp [pushAll, Nat.sub_eq_zero_of_le h]
  | cons x rest ih =>
    intro q h
    have hstep : pushAll N q (x :: rest) = pushAll N (queuePush N q x) rest :=
      rfl
    rw [hstep, ih _ (queuePush_length_le N hN q x h)]
    by_cases hfull : N - q.length = 0
    · have hqN : q.length = N := by omega
      cases q with
      | nil =>
        exfalso
        simp at hqN
        omega
      | cons a q' =>
        have hpush : queuePush N (a :: q') x = q' ++ [x] := by
          unfold queuePush
          rw [if_pos hfull]
          rfl
        rw [hpush]
        have hlen1 : ((q' ++ [x]) ++ rest).length = N + rest.length := by
          simp at hqN ⊢
          omega
        have hlen2 : ((a :: q') ++ x :: rest).length = N + rest.length + 1 := by
          simp at hqN ⊢
          omega
        rw [hlen1, hlen2]
        have e1 : N + rest.length - N = rest.length := by omega
        have e2 : N + rest.length + 1 - N = rest.length + 1 := by omega
        rw [e1, e2]
        have hassoc : (q' ++ [x]) ++ rest = q' ++ x :: rest := by
          simp
        rw [hassoc]
        rw [List.cons_append, List.drop_succ_cons]
    · have hpush : queuePush N q x = q ++ [x] := by
        unfold queuePush
        rw [if_neg hfull]
      rw [hpush]
      have hassoc : (q ++ [x]) ++ rest = q ++ x :: rest := by simp
      rw [hassoc]

/-- C1: pushes into the fixed-capacity delivery queue follow the
drop-oldest policy — a push into a full queue removes the head first and
appends at the tail — so a sequence of pushes into the empty queue leaves
exactly the last `min(k, N)` items in their original relative order, and
the queue length never exceeds the capacity `N` at any point of the
sequence. -/
theorem delivery_queue_drop_oldest {α : Type} (N : Nat) (hN : 0 < N)
    (xs : List α) :
    pushAll N ([] : List α) xs = xs.drop (xs.length - N) ∧
    ∀ i : Nat, (pushAll N ([] : List α) (xs.take i)).length ≤ N := by
  constructor
  · have h := pushAll_eq_drop N hN xs [] (by simp)
    simpa using h
  · intro i
    have h := pushAll_eq_drop N hN (xs.take i) [] (by simp)
    rw [List.nil_append] at h
    rw [h]
    simp only [List.length_drop]
    omega

/-- Witness for C1 at capacity 2 and push sequence `[1, 2, 3]`. -/
theorem delivery_queue_drop_oldest_witness :
    pushAll 2 ([] : List Nat) [1, 2, 3] = [2, 3] ∧
    ∀ i : Nat, (pushAll 2 ([] : List Nat) ([1, 2, 3].take i)).length ≤ 2 :=
  ⟨(delivery_queue_drop_oldest 2 (by decide) [1, 2, 3]).1.trans (by decide),
   (delivery_queue_drop_oldest 2 (by decide) [1, 2, 3]).2⟩

/-- C2: when more than one link configuration candidate exists and the
elapsed time since the last successful decode (or last recovery action)
exceeds the 30-second stall window, the stall check advances the active
index to `(index + 1) mod candidateCount` and reconfigures the meter with
the new candidate; with 3 candidates starting at index 0, successive
stalls make the index 1, then 2, then wrap back to 0. -/
theorem stall_rotates_configuration (configs : List P1MeterConfig)
    (beginOk : P1MeterConfig → Bool) (now : Nat) (t : DataReaderTask)
    (hc : 1 < configs.length)
    (hs : 30 * 1000 < sub32 now t.lastReadTime) :
    (stallCheck configs beginOk now t).baudRateIx
        = (t.baudRateIx + 1) % configs.length ∧
    (stallCheck configs beginOk now t).meterActive
        = some (getConfig configs ((t.baudRateIx + 1) % configs.length)) ∧
    ((stallCheck threeConfigs (fun _ => true) 40000 initialTask).baudRateIx
        = 1 ∧
     (stallCheck threeConfigs (fun _ => true) 80000
        (stallCheck threeConfigs (fun _ => true) 40000
          initialTask)).baudRateIx = 2 ∧
     (stallCheck threeConfigs (fun _ => true) 120000
        (stallCheck threeConfigs (fun _ => true) 80000
          (stallCheck threeConfigs (fun _ => true) 40000
            initialTask))).baudRateIx = 0) := by
  have hrot : stallCheck configs beginOk now t
      = rotateP1MeterBaudRate configs beginOk now t := by
    unfold stallCheck
    rw [if_pos hs]
  refine ⟨?_, ?_, by decide⟩
  · rw [hrot]
    unfold rotateP1MeterBaudRate
    rw [if_pos hc]
    simp only [ite_self]
  · rw [hrot]
    unfold rotateP1MeterBaudRate
    rw [if_pos hc]
    simp only [ite_self]

/-- Witness for C2: three candidates, a 40-second stall from the initial
state advances the index from 0 to 1. -/
theorem stall_rotates_configuration_witness :
    (stallCheck threeConfigs (fun _ => true) 40000 initialTask).baudRateIx
      = (initialTask.baudRateIx + 1) % threeConfigs.length :=
  (stall_rotates_configuration threeConfigs (fun _ => true) 40000
    initialTask (by decide) (by decide)).1

/-- C3: if packaging a successfully decoded reading fails, the reading is
dropped and the queue is left exactly as it was (nothing is pushed); if
packaging succeeds, the package built from the payload and the acceptance
timestamp is pushed onto the queue. -/
theorem packaging_failure_drops_reading (N : Nat) (packageFn : PackageFn)
    (now : Nat) (q : List DataPackage) (d : P1Data) :
    (packageFn d = none →
      enqueueData N packageFn now (some q) d = some q) ∧
    (∀ buf, packageFn d = some buf →
      enqueueData N packageFn now (some q) d =
        some (queuePush N q { data := buf, timestamp := now })) := by
  constructor
  · intro h
    simp [enqueueData, h]
  · intro buf h
    simp [enqueueData, h]

/-- Witness for C3: a packaging step that fails leaves the empty queue
empty; one that produces `[9]` pushes the stamped package. -/
theorem packaging_failure_drops_reading_witness :
    enqueueData 4 (fun _ => none) 7 (some []) {} = some [] ∧
    enqueueData 4 (fun _ => some [9]) 7 (some []) {} =
      some (queuePush 4 [] { data := [9], timestamp := 7 }) :=
  ⟨(packaging_failure_drops_reading 4 (fun _ => none) 7 [] {}).1 rfl,
   (packaging_failure_drops_reading 4 (fun _ => some [9]) 7 [] {}).2 [9] rfl⟩

/-- C4: every invocation of the recovery action sets `lastReadTime` to the
current time, for every possible outcome of the meter reconfiguration;
and with exactly one configuration candidate it changes nothing besides
refreshing that timer — no rotation, no reconfiguration. -/
theorem rotate_always_resets_timer (configs : List P1MeterConfig)
    (beginOk : P1MeterConfig → Bool) (now : Nat) (t : DataReaderTask) :
    (rotateP1MeterBaudRate configs beginOk now t).lastReadTime = now ∧
    (configs.length = 1 →
      rotateP1MeterBaudRate configs beginOk now t =
        { t with lastReadTime := now }) := by
  constructor
  · unfold rotateP1MeterBaudRate
    by_cases hc : 1 < configs.length
    · rw [if_pos hc]
    · rw [if_neg hc]
  · intro h1
    unfold rotateP1MeterBaudRate
    rw [if_neg (by omega)]

/-- Witness for C4: a single-candidate rotation from the initial state
only refreshes the stall timer. -/
theorem rotate_always_resets_timer_witness :
    rotateP1MeterBaudRate [⟨115200⟩] (fun _ => true) 5000 initialTask =
      { initialTask with lastReadTime := 5000 } :=
  (rotate_always_resets_timer [⟨115200⟩] (fun _ => true) 5000
    initialTask).2 rfl

theorem collectFrameBytes_eq (frame : Frame) :
    collectFrameBytes frame = frame.bytes := by
  unfold collectFrameBytes Frame.getFrameSize
  apply List.ext_getElem
  · simp
  · intro i h1 h2
    simp only [List.getElem_map, List.getElem_range, Frame.getFrameByte]
    rw [List.getD_eq_getElem?_getD, List.getElem?_eq_getElem h2]
    rfl

/-- C5: a frame whose type discriminant has no implemented decoder — the
known-but-unimplemented M-Bus type or any unknown tag — always decodes to
nothing, whatever the registered decoders are, and handling it only bumps
the failed-frame counter and refreshes the faulty-frame snapshot: nothing
is enqueued and no other state changes, so there is no fatal outcome. -/
theorem unsupported_type_counts_as_failure (N : Nat) (dlms ascii : Decoder)
    (packageFn : PackageFn) (now : Nat) (t : DataReaderTask) (frame : Frame)
    (hty : frame.typeId = FrameType.mbus ∨
           ∃ tag, frame.typeId = FrameType.other tag) :
    decodeFrame dlms ascii frame = none ∧
    handleFrame N dlms ascii packageFn now t frame =
      { t with failedFrames := t.failedFrames + 1,
               faultyFrameData := frame.bytes } := by
  have hdec : decodeFrame dlms ascii frame = none := by
    unfold decodeFrame
    rcases hty with h | ⟨tag, h⟩ <;> rw [h]
  refine ⟨hdec, ?_⟩
  unfold handleFrame
  rw [hdec, collectFrameBytes_eq]

/-- Witness for C5 on a concrete M-Bus frame with decoders that would
accept anything. -/
theorem unsupported_type_counts_as_failure_witness :
    decodeFrame (fun _ => some {}) (fun _ => some {})
        { typeId := FrameType.mbus, bytes := [1, 2, 3] } = none ∧
    handleFrame 4 (fun _ => some {}) (fun _ => some {}) (fun _ => some [])
        9 initialTask { typeId := FrameType.mbus, bytes := [1, 2, 3] } =
      { initialTask with failedFrames := initialTask.failedFrames + 1,
                         faultyFrameData := [1, 2, 3] } :=
  unsupported_type_counts_as_failure 4 (fun _ => some {}) (fun _ => some {})
    (fun _ => some []) 9 initialTask
    { typeId := FrameType.mbus, bytes := [1, 2, 3] } (Or.inl rfl)

/-- C6: when decoding a frame fails, handling it leaves the delivery
queue, the stall timer and every other field unchanged except the
diagnostics: the failed-frame counter is incremented and the faulty-frame
snapshot becomes exactly that frame's bytes in order. -/
theorem decode_failure_only_diagnostics (N : Nat) (dlms ascii : Decoder)
    (packageFn : PackageFn) (now : Nat) (t : DataReaderTask) (frame : Frame)
    (hfail : decodeFrame dlms ascii frame = none) :
    handleFrame N dlms ascii packageFn now t frame =
      { t with failedFrames := t.failedFrames + 1,
               faultyFrameData := frame.bytes } := by
  unfold handleFrame
  rw [hfail, collectFrameBytes_eq]

/-- Witness for C6 on a concrete ASCII frame rejected by its decoder. -/
theorem decode_failure_only_diagnostics_witness :
    handleFrame 4 (fun _ => some {}) (fun _ => none) (fun _ => some [])
        9 initialTask { typeId := FrameType.ascii, bytes := [7, 8] } =
      { initialTask with failedFrames := initialTask.failedFrames + 1,
                         faultyFrameData := [7, 8] } :=
  decode_failure_only_diagnostics 4 (fun _ => some {}) (fun _ => none)
    (fun _ => some []) 9 initialTask
    { typeId := FrameType.ascii, bytes := [7, 8] } rfl

/-- C7: a successful decode sets the stall timer to the current time, so
a stall check performed while the elapsed time still lies within the
30-second window — in particular one in the same instant — leaves the
state untouched and rotates nothing. -/
theorem success_resets_stall_timer (N : Nat) (dlms ascii : Decoder)
    (packageFn : PackageFn) (configs : List P1MeterConfig)
    (beginOk : P1MeterConfig → Bool) (now later : Nat) (t : DataReaderTask)
    (frame : Frame) (hsucc : (decodeFrame dlms ascii frame).isSome = true)
    (hwin : sub32 later now ≤ 30 * 1000) :
    (handleFrame N dlms ascii packageFn now t frame).lastReadTime = now ∧
    stallCheck configs beginOk later
        (handleFrame N dlms ascii packageFn now t frame) =
      handleFrame N dlms ascii packageFn now t frame := by
  obtain ⟨d, hd⟩ := Option.isSome_iff_exists.mp hsucc
  have h1 : (handleFrame N dlms ascii packageFn now t frame).lastReadTime
      = now := by
    unfold handleFrame
    rw [hd]
  refine ⟨h1, ?_⟩
  unfold stallCheck
  rw [h1, if_neg (by omega)]

/-- Witness for C7: a decoded HDLC frame at time 100 followed by a stall
check at time 100 changes nothing. -/
theorem success_resets_stall_timer_witness :
    (handleFrame 4 (fun _ => some {}) (fun _ => none) (fun _ => some [])
        100 initialTask
        { typeId := FrameType.hdlc, bytes := [1] }).lastReadTime = 100 ∧
    stallCheck threeConfigs (fun _ => true) 100
        (handleFrame 4 (fun _ => some {}) (fun _ => none) (fun _ => some [])
          100 initialTask { typeId := FrameType.hdlc, bytes := [1] }) =
      handleFrame 4 (fun _ => some {}) (fun _ => none) (fun _ => some [])
        100 initialTask { typeId := FrameType.hdlc, bytes := [1] } :=
  success_resets_stall_timer 4 (fun _ => some {}) (fun _ => none)
    (fun _ => some []) threeConfigs (fun _ => true) 100 100 initialTask
    { typeId := FrameType.hdlc, bytes := [1] } rfl (by decide)

/-- C8 counterexample: `setInterval` is the only duration setter on the
control surface, yet the stall check does not use the configured duration
as its window — after configuring 5000 ms, an elapsed time of 10000 ms
with three candidates available still rotates nothing (the index stays 0,
where a 5000 ms window would have advanced it to 1), because the check
compares against a fixed 30000 ms constant. -/
theorem setInterval_ignored_by_stall_check :
    (setInterval 5000 initialTask).readInterval = 5000 ∧
    5000 < sub32 10000 (setInterval 5000 initialTask).lastReadTime ∧
    1 < threeConfigs.length ∧
    (stallCheck threeConfigs (fun _ => true) 10000
      (setInterval 5000 initialTask)).baudRateIx = 0 := by
  decide

/-- C8 amended: `setInterval(duration)` stores the duration in the
`readInterval` field, but the stall check is independent of it — it
commutes with `setInterval` and keeps using the fixed 30000 ms window, so
within that fixed window it never rotates, whatever duration was
configured. -/
theorem setInterval_stores_fixed_window (configs : List P1MeterConfig)
    (beginOk : P1MeterConfig → Bool) (now d : Nat) (t : DataReaderTask) :
    (setInterval d t).readInterval = d ∧
    stallCheck configs beginOk now (setInterval d t) =
      setInterval d (stallCheck configs beginOk now t) ∧
    (sub32 now t.lastReadTime ≤ 30 * 1000 →
      stallCheck configs beginOk now (setInterval d t) = setInterval d t) := by
  refine ⟨rfl, ?_, ?_⟩
  · unfold stallCheck setInterval rotateP1MeterBaudRate
    by_cases h : 30 * 1000 < sub32 now t.lastReadTime <;>
      by_cases hc : 1 < configs.length <;>
      simp [h, hc, ite_self]
  · intro h
    unfold stallCheck
    rw [if_neg (by simpa [setInterval] using Nat.not_lt.mpr h)]

/-- Witness for C8 amended: configuring a 5000 ms duration before a check
with 10000 ms elapsed changes nothing but the stored field. -/
theorem setInterval_stores_fixed_window_witness :
    stallCheck threeConfigs (fun _ => true) 10000
        (setInterval 5000 initialTask) =
      setInterval 5000 initialTask :=
  (setInterval_stores_fixed_window threeConfigs (fun _ => true) 10000 5000
    initialTask).2.2 (by decide)

/-- C9: `begin` called while the worker task is already running returns
the state unchanged — no second task, no callback or queue registration —
and `stop` called while no task is running also returns the state
unchanged. -/
theorem start_stop_idempotent (configs : List P1MeterConfig)
    (dataQueue : Option (List DataPackage)) (t : DataReaderTask) :
    (t.taskHandle = true →
      DataReaderTask.begin configs dataQueue t = t) ∧
    (t.taskHandle = false → DataReaderTask.stop t = t) := by
  constructor
  · intro h
    unfold DataReaderTask.begin
    rw [h, if_pos rfl]
  · intro h
    unfold DataReaderTask.stop
    rw [h, if_neg (by simp)]

/-- Witness for C9: `begin` on a running task and `stop` on the initial
(not running) task are both no-ops. -/
theorem start_stop_idempotent_witness :
    DataReaderTask.begin threeConfigs (some []) runningTask = runningTask ∧
    DataReaderTask.stop initialTask = initialTask :=
  ⟨(start_stop_idempotent threeConfigs (some []) runningTask).1 rfl,
   (start_stop_idempotent threeConfigs (some []) initialTask).2 rfl⟩

/-- C10: with a null queue handle the enqueue step is a guarded no-op —
the result is the same whatever the packaging function, so packaging is
never consulted and nothing is pushed — and handling a successfully
decoded frame before `begin` has supplied a queue only performs the
reading's own bookkeeping: frame counter, stall timer and last decoded
reading; the queue handle stays null. -/
theorem null_queue_enqueue_noop (N : Nat) (dlms ascii : Decoder)
    (packageFn : PackageFn) (now : Nat) (t : DataReaderTask)
    (frame : Frame) (d : P1Data) (hq : t.p1DataQueue = none)
    (hdec : decodeFrame dlms ascii frame = some d) :
    enqueueData N packageFn now none d = none ∧
    (∀ pk : PackageFn, enqueueData N packageFn now none d =
      enqueueData N pk now none d) ∧
    handleFrame N dlms ascii packageFn now t frame =
      { t with frames := t.frames + 1,
               lastReadTime := now,
               lastDecodedData := some (d.setTimeStamp now) } := by
  refine ⟨rfl, fun pk => rfl, ?_⟩
  unfold handleFrame
  rw [hdec, hq]
  simp [enqueueData, hq]

/-- Witness for C10: a decoded HDLC frame handled on the freshly
constructed task (null queue handle) never enqueues. -/
theorem null_queue_enqueue_noop_witness :
    enqueueData 4 (fun _ => some [1]) 9 none {} = none ∧
    (∀ pk : PackageFn, enqueueData 4 (fun _ => some [1]) 9 none {} =
      enqueueData 4 pk 9 none {}) ∧
    handleFrame 4 (fun _ => some {}) (fun _ => none) (fun _ => some [1])
        9 initialTask { typeId := FrameType.hdlc, bytes := [1] } =
      { initialTask with
          frames := initialTask.frames + 1,
          lastReadTime := 9,
          lastDecodedData := some (P1Data.setTimeStamp {} 9) } :=
  null_queue_enqueue_noop 4 (fun _ => some {}) (fun _ => none)
    (fun _ => some [1]) 9 initialTask
    { typeId := FrameType.hdlc, bytes := [1] } {} rfl rfl
